import Mathlib

/-!
Verification development for the magentic-ui excerpt consisting of three
Python modules, shallowly embedded below:

* `src/magentic_ui/models/bedrock_claude_client.py`
  (namespace `Bedrock`)
* `src/magentic_ui/models/gemini_client.py`
  (namespace `Gemini`)
* `src/magentic_ui/tools/playwright/browser/vnc_docker_playwright_browser.py`
  (namespace `Vnc`)

Python dict messages are modelled as records with optional `role` and
`content` keys (a key may be absent). Floats that are only carried around,
never computed with (temperatures), are modelled as rationals. The
non-deterministic ingredients (the vendor backends, `secrets.token_hex`,
the probed free ports, the process environment) are passed in explicitly
as parameters, so every definition is executable and deterministic.
-/

namespace MagenticUI

/-- Message content as it reaches the adapters: either a plain string or a
list of parts (multimodal), mirroring the `isinstance(content, list)` checks. -/
inductive MsgContent where
  | str (s : String)
  | list (parts : List String)
deriving DecidableEq

/-- A framework message dict: both keys may be absent, mirroring
`m.get("role", "user")` / `m.get("content", "")`. -/
structure Message where
  role : Option String
  content : Option MsgContent
deriving DecidableEq

/-- How both adapters flatten list-valued content:
`" ".join(str(p) for p in content)`; string content is left untouched. -/
def contentToString : MsgContent → String
  | .str s => s
  | .list ps => String.intercalate " " ps

/-- One entry of the normalized message list sent to the vendor. -/
structure ConvertedMessage where
  role : String
  content : String
deriving DecidableEq

/-- `autogen_core.models.RequestUsage`. -/
structure RequestUsage where
  prompt_tokens : Nat
  completion_tokens : Nat
deriving DecidableEq

/-- The pair of usage counters an adapter instance carries
(`_actual_usage`, `_total_usage`). -/
structure UsageState where
  actual : RequestUsage
  total : RequestUsage
deriving DecidableEq

/-- The zero counters installed by the lazy `hasattr` initialisation in
`_update_usage`. -/
def UsageState.init : UsageState :=
  { actual := ⟨0, 0⟩, total := ⟨0, 0⟩ }

/-- Componentwise addition of usage records. -/
def addUsage (a b : RequestUsage) : RequestUsage :=
  ⟨a.prompt_tokens + b.prompt_tokens, a.completion_tokens + b.completion_tokens⟩

/-- Sum of a list of per-call usage estimates. -/
def usageSum (ds : List RequestUsage) : RequestUsage :=
  ds.foldl addUsage ⟨0, 0⟩

/-- `loop.run_in_executor(None, thunk)` awaited: with a deterministic thunk the
caller simply receives the thunk's value. -/
def run_in_executor (f : Unit → α) : α := f ()

namespace Bedrock

/-- `bedrock_claude_client._convert_messages`: one output entry per input
message, role defaulted to "user", content defaulted to "", lists joined with
single spaces. -/
def _convert_messages (messages : List Message) : List ConvertedMessage :=
  messages.map fun m =>
    { role := m.role.getD "user"
      content := contentToString (m.content.getD (.str "")) }

/-- Constructor state of `BedrockClaudeChatCompletionClient` (the boto3
client object itself is replaced by an explicit backend parameter at each
call site). -/
structure BedrockClaudeChatCompletionClient where
  model_id : String
  aws_region : String
  temperature : Rat
  max_tokens : Nat
deriving DecidableEq

/-- The JSON payload built by `create_chat_completion`. -/
structure Payload where
  anthropic_version : String
  max_tokens : Nat
  temperature : Rat
  messages : List ConvertedMessage
deriving DecidableEq

/-- A content block of the Bedrock response body: the "text" key may be
absent. -/
structure ContentBlock where
  text : Option String
deriving DecidableEq

/-- The decoded Bedrock response body: the "content" key may be absent, the
"stop_reason" key may be absent. -/
structure Body where
  content : Option (List ContentBlock)
  stop_reason : Option String
deriving DecidableEq

/-- The single choice record returned by `create_chat_completion`
(`choices[0]`). -/
structure Choice where
  role : String
  content : String
  finish_reason : String
deriving DecidableEq

/-- The response-parsing tail of `create_chat_completion`:
`body_json["content"][0]["text"]` raises (KeyError / IndexError) on any
missing step, while `body_json.get("stop_reason", "stop")` defaults. -/
def parseBody (b : Body) : Except String Choice :=
  match b.content with
  | none => .error "KeyError: content"
  | some blocks =>
    match blocks[0]? with
    | none => .error "IndexError: list index out of range"
    | some blk =>
      match blk.text with
      | none => .error "KeyError: text"
      | some t =>
        .ok { role := "assistant", content := t
              finish_reason := b.stop_reason.getD "stop" }

/-- The request payload assembled by `create_chat_completion`: per-call
kwargs override the instance defaults. -/
def buildPayload (c : BedrockClaudeChatCompletionClient) (messages : List Message)
    (kwMaxTokens : Option Nat) (kwTemperature : Option Rat) : Payload :=
  { anthropic_version := "bedrock-2023-05-31"
    max_tokens := kwMaxTokens.getD c.max_tokens
    temperature := kwTemperature.getD c.temperature
    messages := _convert_messages messages }

/-- `BedrockClaudeChatCompletionClient.create_chat_completion`. The vendor
call `self._client.invoke_model` is the `backend` parameter, mapping the
request payload to the decoded response body. -/
def create_chat_completion (c : BedrockClaudeChatCompletionClient)
    (backend : Payload → Body) (messages : List Message) (stream : Bool)
    (kwMaxTokens : Option Nat) (kwTemperature : Option Rat) :
    Except String Choice :=
  if stream then
    .error "NotImplementedError: Streaming not yet supported for Bedrock Claude 3 in this client."
  else
    parseBody (backend (buildPayload c messages kwMaxTokens kwTemperature))

/-- `BedrockClaudeChatCompletionClient.acreate_chat_completion`: wraps the
blocking call in `loop.run_in_executor`. -/
def acreate_chat_completion (c : BedrockClaudeChatCompletionClient)
    (backend : Payload → Body) (messages : List Message) (stream : Bool)
    (kwMaxTokens : Option Nat) (kwTemperature : Option Rat) :
    Except String Choice :=
  run_in_executor fun _ =>
    create_chat_completion c backend messages stream kwMaxTokens kwTemperature

/-- `BedrockClaudeChatCompletionClient._update_usage`: `none` stands for the
not-yet-initialised counters (no `_actual_usage` attribute); the lazy branch
installs zeros, then the delta is added to BOTH counters. -/
def _update_usage (st : Option UsageState) (delta : RequestUsage) :
    Option UsageState :=
  let s := st.getD UsageState.init
  some { actual := ⟨s.actual.prompt_tokens + delta.prompt_tokens,
                    s.actual.completion_tokens + delta.completion_tokens⟩
         total := ⟨s.total.prompt_tokens + delta.prompt_tokens,
                   s.total.completion_tokens + delta.completion_tokens⟩ }

end Bedrock

namespace Gemini

/-- The fixed leading language-preference instruction line hardcoded into
the Gemini prompt assembly. -/
def languageInstruction : String :=
  "system: 請以與使用者輸入相同的語言作答，若使用者使用中文則回答請完全使用中文。若非中文則對應使用者語言。"

/-- `gemini_client._convert_messages_to_prompt`: fixed instruction line, then
one "role: content" line per message, newline-joined; list content joined
with single spaces. -/
def _convert_messages_to_prompt (messages : List Message) : String :=
  String.intercalate "\n"
    (languageInstruction ::
      messages.map fun m =>
        (m.role.getD "user") ++ ": " ++ contentToString (m.content.getD (.str "")))

/-- Constructor state of `GeminiChatCompletionClient` (the `genai` model
object is replaced by an explicit backend parameter at each call site). -/
structure GeminiChatCompletionClient where
  model_name : String
  api_key : Option String
  temperature : Rat
  max_output_tokens : Nat
deriving DecidableEq

/-- The pydantic `_GeminiClientConfig` schema. -/
structure GeminiClientConfig where
  model : String
  api_key : Option String
  temperature : Rat
  max_output_tokens : Nat
deriving DecidableEq

/-- `GeminiChatCompletionClient._to_config`: the api_key field is serialized
as `None` ("Do not serialize secret"). -/
def _to_config (g : GeminiChatCompletionClient) : GeminiClientConfig :=
  { model := g.model_name
    api_key := none
    temperature := g.temperature
    max_output_tokens := g.max_output_tokens }

/-- One candidate of a Gemini SDK response. -/
structure Candidate where
  finish_reason : String
deriving DecidableEq

/-- A full (non-streaming) Gemini SDK response: `.text` and `.candidates`. -/
structure SdkResponse where
  text : String
  candidates : List Candidate
deriving DecidableEq

/-- The deterministic vendor backend behind `self._model.generate_content`:
the full-response mode and the streaming mode (a finite list of chunk
texts), each a function of prompt, temperature and max_output_tokens. -/
structure Backend where
  full : String → Rat → Nat → SdkResponse
  chunks : String → Rat → Nat → List String

/-- One autogen streaming fragment
`{"choices": [{"delta": ..., "index": 0, "finish_reason": ...}]}`;
`delta_content = none` models the empty delta `{}`. -/
structure StreamFragment where
  delta_content : Option String
  index : Nat
  finish_reason : Option String
deriving DecidableEq

/-- The single choice record of the non-streaming result. -/
structure Choice where
  role : String
  content : String
  finish_reason : String
deriving DecidableEq

/-- Denotation of the `create_chat_completion` generator: the list of
fragments it yields and the value its `return` statement carries. -/
structure GenOutput where
  yielded : List StreamFragment
  ret : Option Choice
deriving DecidableEq

/-- `GeminiChatCompletionClient.create_chat_completion`. In streaming mode:
one fragment per vendor chunk (content = chunk text, null finish_reason,
index 0) in vendor order, then the terminal fragment (empty delta,
finish_reason "stop"). Otherwise: one assistant choice whose finish_reason
is `candidates[0].finish_reason` when candidates is non-empty, else
"stop". -/
def create_chat_completion (c : GeminiChatCompletionClient) (backend : Backend)
    (messages : List Message) (stream : Bool)
    (kwTemperature : Option Rat) (kwMaxOutputTokens : Option Nat) : GenOutput :=
  let prompt := _convert_messages_to_prompt messages
  let temp := kwTemperature.getD c.temperature
  let maxTok := kwMaxOutputTokens.getD c.max_output_tokens
  if stream then
    { yielded :=
        (backend.chunks prompt temp maxTok).map
          (fun t => { delta_content := some t, index := 0, finish_reason := none })
        ++ [{ delta_content := none, index := 0, finish_reason := some "stop" }]
      ret := none }
  else
    let response := backend.full prompt temp maxTok
    { yielded := []
      ret := some
        { role := "assistant"
          content := response.text
          finish_reason :=
            match response.candidates with
            | [] => "stop"
            | cand :: _ => cand.finish_reason } }

/-- `GeminiChatCompletionClient.acreate_chat_completion`: wraps the blocking
call in `loop.run_in_executor`. -/
def acreate_chat_completion (c : GeminiChatCompletionClient) (backend : Backend)
    (messages : List Message) (stream : Bool)
    (kwTemperature : Option Rat) (kwMaxOutputTokens : Option Nat) : GenOutput :=
  run_in_executor fun _ =>
    create_chat_completion c backend messages stream kwTemperature kwMaxOutputTokens

/-- `GeminiChatCompletionClient._update_usage`: identical bookkeeping to the
Bedrock adapter — the delta is added to BOTH counters. -/
def _update_usage (st : Option UsageState) (delta : RequestUsage) :
    Option UsageState :=
  let s := st.getD UsageState.init
  some { actual := ⟨s.actual.prompt_tokens + delta.prompt_tokens,
                    s.actual.completion_tokens + delta.completion_tokens⟩
         total := ⟨s.total.prompt_tokens + delta.prompt_tokens,
                   s.total.completion_tokens + delta.completion_tokens⟩ }

end Gemini

namespace Vnc

/-- `os.getenv(name) or ...` truthiness: an unset variable and a variable
set to the empty string are both falsy. -/
def getenvTruthy (env : String → Option String) (name : String) : Option String :=
  match env name with
  | none => none
  | some s => if s = "" then none else some s

/-- The fixed fallback chain
`os.getenv("MUI_EXTERNAL_HOST") or os.getenv("PUBLIC_HOST") or
os.getenv("PUBLIC_IP") or os.getenv("HOST_IP")`. -/
def external_host_env (env : String → Option String) : Option String :=
  (getenvTruthy env "MUI_EXTERNAL_HOST").orElse fun _ =>
    (getenvTruthy env "PUBLIC_HOST").orElse fun _ =>
      (getenvTruthy env "PUBLIC_IP").orElse fun _ =>
        getenvTruthy env "HOST_IP"

/-- The pydantic `VncDockerPlaywrightBrowserConfig` schema. Note: it has no
network_name field. -/
structure VncDockerPlaywrightBrowserConfig where
  bind_dir : String
  image : String
  playwright_port : Nat
  novnc_port : Nat
  playwright_websocket_path : Option String
  inside_docker : Bool
deriving DecidableEq

/-- Instance state of `VncDockerPlaywrightBrowser` after `__init__`. -/
structure VncDockerPlaywrightBrowser where
  bind_dir : String
  image : String
  playwright_port : Nat
  novnc_port : Nat
  playwright_websocket_path : String
  inside_docker : Bool
  network_name : String
  hostname : String
  docker_name : String
deriving DecidableEq

/-- `playwright_websocket_path or secrets.token_hex(16)`: a `None` or empty
supplied path is replaced by the freshly drawn token. -/
def tokenOrFresh (supplied : Option String) (fresh : String) : String :=
  match supplied with
  | none => fresh
  | some s => if s = "" then fresh else s

/-- `VncDockerPlaywrightBrowser.__init__`. The random token
`secrets.token_hex(16)` is the `fresh` parameter and the process
environment is the `env` parameter. The constructor accepts no
external-host parameter: when `inside_docker` is false the hostname comes
from the environment chain, else "127.0.0.1". -/
def init (bind_dir : String) (image : String) (playwright_port : Nat)
    (playwright_websocket_path : Option String) (novnc_port : Nat)
    (inside_docker : Bool) (network_name : String)
    (fresh : String) (env : String → Option String) :
    VncDockerPlaywrightBrowser :=
  let path := tokenOrFresh playwright_websocket_path fresh
  { bind_dir := bind_dir
    image := image
    playwright_port := playwright_port
    novnc_port := novnc_port
    playwright_websocket_path := path
    inside_docker := inside_docker
    network_name := network_name
    hostname :=
      if inside_docker then
        "magentic-ui-vnc-browser_" ++ path ++ "_" ++ toString novnc_port
      else
        (external_host_env env).getD "127.0.0.1"
    docker_name :=
      "magentic-ui-vnc-browser_" ++ path ++ "_" ++ toString novnc_port }

/-- `VncDockerPlaywrightBrowser._generate_new_browser_address`: the two
freshly probed ports are the `pp` / `np` parameters; hostname and
docker_name are recomputed exactly as in `__init__`, the token is reused. -/
def _generate_new_browser_address (b : VncDockerPlaywrightBrowser)
    (pp np : Nat) (env : String → Option String) : VncDockerPlaywrightBrowser :=
  { b with
    playwright_port := pp
    novnc_port := np
    hostname :=
      if b.inside_docker then
        "magentic-ui-vnc-browser_" ++ b.playwright_websocket_path ++ "_" ++ toString np
      else
        (external_host_env env).getD "127.0.0.1"
    docker_name :=
      "magentic-ui-vnc-browser_" ++ b.playwright_websocket_path ++ "_" ++ toString np }

/-- The `browser_address` property. -/
def browser_address (b : VncDockerPlaywrightBrowser) : String :=
  "ws://" ++ b.hostname ++ ":" ++ toString b.playwright_port ++ "/"
    ++ b.playwright_websocket_path

/-- The `vnc_address` property. -/
def vnc_address (b : VncDockerPlaywrightBrowser) : String :=
  "http://" ++ b.hostname ++ ":" ++ toString b.novnc_port ++ "/vnc.html"

/-- `VncDockerPlaywrightBrowser._to_config`: network_name is not
serialized. -/
def _to_config (b : VncDockerPlaywrightBrowser) : VncDockerPlaywrightBrowserConfig :=
  { bind_dir := b.bind_dir
    image := b.image
    playwright_port := b.playwright_port
    novnc_port := b.novnc_port
    playwright_websocket_path := some b.playwright_websocket_path
    inside_docker := b.inside_docker }

/-- `VncDockerPlaywrightBrowser._from_config`: calls the constructor without
a network_name argument, so the reconstructed instance gets the default
"my-network". -/
def _from_config (config : VncDockerPlaywrightBrowserConfig)
    (fresh : String) (env : String → Option String) : VncDockerPlaywrightBrowser :=
  init config.bind_dir config.image config.playwright_port
    config.playwright_websocket_path config.novnc_port config.inside_docker
    "my-network" fresh env

end Vnc

/-! ## Theorems -/

/-- Once the counters are initialised, folding further deltas through
`_update_usage` adds them componentwise to both counters. -/
theorem bedrock_foldl_update_some (ds : List RequestUsage) (s : UsageState) :
    ds.foldl Bedrock._update_usage (some s) =
      some { actual := ds.foldl addUsage s.actual
             total := ds.foldl addUsage s.total } := by
  induction ds generalizing s with
  | nil => rfl
  | cons d tl ih =>
    simp only [List.foldl_cons, Bedrock._update_usage, Option.getD_some, ih, addUsage]

/-- The Gemini `_update_usage` is the same bookkeeping. -/
theorem gemini_foldl_update_some (ds : List RequestUsage) (s : UsageState) :
    ds.foldl Gemini._update_usage (some s) =
      some { actual := ds.foldl addUsage s.actual
             total := ds.foldl addUsage s.total } := by
  induction ds generalizing s with
  | nil => rfl
  | cons d tl ih =>
    simp only [List.foldl_cons, Gemini._update_usage, Option.getD_some, ih, addUsage]

/-- C1 (counterexample): after two calls with deltas (1,1) then (2,3), the
"actual" counters of both adapters hold the cumulative sum (3,4), not the
last call's delta (2,3) alone. -/
theorem usage_actual_not_last_delta_cex :
    ((([⟨1, 1⟩, ⟨2, 3⟩] : List RequestUsage).foldl Bedrock._update_usage
        none).getD UsageState.init).actual ≠ (⟨2, 3⟩ : RequestUsage) ∧
    ((([⟨1, 1⟩, ⟨2, 3⟩] : List RequestUsage).foldl Gemini._update_usage
        none).getD UsageState.init).actual ≠ (⟨2, 3⟩ : RequestUsage) := by
  decide

/-- C1 (amended): for every sequence of per-call usage estimates, after
folding them through `_update_usage` (Bedrock or Gemini, starting from the
uninitialised state) the "total" counters equal the sum of the per-call
estimates, and the "actual" counters equal that same cumulative sum (both
counters accumulate; "actual" is not the last delta alone). -/
theorem usage_counters_cumulative (ds : List RequestUsage) :
    ((ds.foldl Bedrock._update_usage none).getD UsageState.init).total = usageSum ds ∧
    ((ds.foldl Bedrock._update_usage none).getD UsageState.init).actual = usageSum ds ∧
    ((ds.foldl Gemini._update_usage none).getD UsageState.init).total = usageSum ds ∧
    ((ds.foldl Gemini._update_usage none).getD UsageState.init).actual = usageSum ds := by
  cases ds with
  | nil => simp [usageSum, UsageState.init]
  | cons d tl =>
    simp only [List.foldl_cons, usageSum]
    rw [show Bedrock._update_usage none d =
          some { actual := addUsage ⟨0, 0⟩ d, total := addUsage ⟨0, 0⟩ d } from rfl,
        show Gemini._update_usage none d =
          some { actual := addUsage ⟨0, 0⟩ d, total := addUsage ⟨0, 0⟩ d } from rfl,
        bedrock_foldl_update_some, gemini_foldl_update_some]
    simp

/-- C2: `_convert_messages` produces exactly one entry per input message, in
order; an entry's role and content equal the input's, except that
list-valued content is joined with single spaces (`contentToString`). -/
theorem bedrock_convert_messages_preserves (messages : List Message) :
    (Bedrock._convert_messages messages).length = messages.length ∧
    ∀ (i : Nat) (r : String) (c : MsgContent),
      messages[i]? = some { role := some r, content := some c } →
      (Bedrock._convert_messages messages)[i]? =
        some { role := r, content := contentToString c } := by
  refine ⟨by simp [Bedrock._convert_messages], ?_⟩
  intro i r c h
  simp [Bedrock._convert_messages, List.getElem?_map, h]

/-- Witness for C2 at a one-message list whose content is the list
["a", "b"]. -/
theorem bedrock_convert_messages_preserves_witness :
    (Bedrock._convert_messages
        [{ role := some "user", content := some (.list ["a", "b"]) }]).length = 1 ∧
    (Bedrock._convert_messages
        [{ role := some "user", content := some (.list ["a", "b"]) }])[0]? =
      some { role := "user", content := "a b" } := by
  refine ⟨(bedrock_convert_messages_preserves _).1, ?_⟩
  have h := (bedrock_convert_messages_preserves
      [{ role := some "user", content := some (.list ["a", "b"]) }]).2 0 "user"
      (.list ["a", "b"]) rfl
  simpa [contentToString, String.intercalate] using h

/-- C3: for every client state, deterministic backend, message list, stream
flag and keyword overrides, the non-blocking entry point
`acreate_chat_completion` (the blocking call pushed onto the worker pool and
awaited) returns the same result record as the blocking
`create_chat_completion`, for both adapters. -/
theorem async_sync_equivalence :
    (∀ (c : Bedrock.BedrockClaudeChatCompletionClient)
        (backend : Bedrock.Payload → Bedrock.Body)
        (messages : List Message) (stream : Bool)
        (kwMaxTokens : Option Nat) (kwTemperature : Option Rat),
      Bedrock.acreate_chat_completion c backend messages stream kwMaxTokens kwTemperature =
        Bedrock.create_chat_completion c backend messages stream kwMaxTokens kwTemperature) ∧
    (∀ (c : Gemini.GeminiChatCompletionClient) (backend : Gemini.Backend)
        (messages : List Message) (stream : Bool)
        (kwTemperature : Option Rat) (kwMaxOutputTokens : Option Nat),
      Gemini.acreate_chat_completion c backend messages stream kwTemperature kwMaxOutputTokens =
        Gemini.create_chat_completion c backend messages stream kwTemperature kwMaxOutputTokens) :=
  ⟨fun _ _ _ _ _ _ => rfl, fun _ _ _ _ _ _ => rfl⟩

/-- C4: for every finite sequence of vendor chunks, the Gemini adapter's
streaming mode yields chunks.length + 1 fragments: the i-th fragment (for a
chunk at index i) has null finish_reason and content equal to that chunk's
text, in vendor order, and the fragment at index chunks.length — the last
one, so nothing follows it — is the single terminal fragment with
finish_reason "stop". -/
theorem gemini_stream_shape (c : Gemini.GeminiChatCompletionClient)
    (backend : Gemini.Backend) (messages : List Message)
    (kwTemperature : Option Rat) (kwMaxOutputTokens : Option Nat)
    (chunks : List String)
    (hchunks : backend.chunks (Gemini._convert_messages_to_prompt messages)
        (kwTemperature.getD c.temperature)
        (kwMaxOutputTokens.getD c.max_output_tokens) = chunks) :
    (Gemini.create_chat_completion c backend messages true kwTemperature
        kwMaxOutputTokens).yielded.length = chunks.length + 1 ∧
    (∀ (i : Nat) (t : String), chunks[i]? = some t →
      (Gemini.create_chat_completion c backend messages true kwTemperature
          kwMaxOutputTokens).yielded[i]? =
        some { delta_content := some t, index := 0, finish_reason := none }) ∧
    (Gemini.create_chat_completion c backend messages true kwTemperature
        kwMaxOutputTokens).yielded[chunks.length]? =
      some { delta_content := none, index := 0, finish_reason := some "stop" } := by
  refine ⟨?_, ?_, ?_⟩
  · simp [Gemini.create_chat_completion, hchunks]
  · intro i t ht
    have hi : i < chunks.length := (List.getElem?_eq_some.mp ht).1
    simp only [Gemini.create_chat_completion, if_pos, hchunks]
    rw [List.getElem?_append_left (by simpa using hi), List.getElem?_map, ht]
    rfl
  · simp only [Gemini.create_chat_completion, if_pos, hchunks]
    have hlen : chunks.length = (chunks.map fun t =>
        ({ delta_content := some t, index := 0, finish_reason := none } :
          Gemini.StreamFragment)).length := by simp
    rw [hlen, List.getElem?_concat_length]

/-- Deterministic Gemini test double used to instantiate C4's theorem. -/
def sampleBackend : Gemini.Backend :=
  { full := fun _ _ _ => { text := "hi", candidates := [] }
    chunks := fun _ _ _ => ["a", "b"] }

/-- Witness for C4: two vendor chunks "a", "b" give three fragments — the
first carries "a" with null finish_reason, the last is the terminal "stop"
fragment. -/
theorem gemini_stream_shape_witness :
    (Gemini.create_chat_completion ⟨"g", none, 0, 8⟩ sampleBackend [] true
        none none).yielded.length = 3 ∧
    (Gemini.create_chat_completion ⟨"g", none, 0, 8⟩ sampleBackend [] true
        none none).yielded[0]? =
      some { delta_content := some "a", index := 0, finish_reason := none } ∧
    (Gemini.create_chat_completion ⟨"g", none, 0, 8⟩ sampleBackend [] true
        none none).yielded[2]? =
      some { delta_content := none, index := 0, finish_reason := some "stop" } := by
  have h := gemini_stream_shape ⟨"g", none, 0, 8⟩ sampleBackend [] none none
    ["a", "b"] rfl
  exact ⟨h.1, h.2.1 0 "a" rfl, h.2.2⟩

/-- C5: with inside_docker = true the hostname is the synthesized container
DNS name "magentic-ui-vnc-browser_" ++ token ++ "_" ++ viewer port, for
every environment; with inside_docker = false and MUI_EXTERNAL_HOST set to
"example.com", vnc_address is "http://example.com:novnc_port/vnc.html" and
browser_address is "ws://example.com:playwright_port/token". -/
theorem vnc_hostname_and_addresses
    (bind_dir image : String) (playwright_port novnc_port : Nat)
    (path : Option String) (network fresh : String)
    (env : String → Option String) :
    ((Vnc.init bind_dir image playwright_port path novnc_port true network
        fresh env).hostname =
      "magentic-ui-vnc-browser_" ++
        (Vnc.init bind_dir image playwright_port path novnc_port true network
          fresh env).playwright_websocket_path ++ "_" ++ toString novnc_port) ∧
    (env "MUI_EXTERNAL_HOST" = some "example.com" →
      Vnc.vnc_address (Vnc.init bind_dir image playwright_port path novnc_port
          false network fresh env) =
        "http://example.com:" ++ toString novnc_port ++ "/vnc.html" ∧
      Vnc.browser_address (Vnc.init bind_dir image playwright_port path
          novnc_port false network fresh env) =
        "ws://example.com:" ++ toString playwright_port ++ "/" ++
          (Vnc.init bind_dir image playwright_port path novnc_port false
            network fresh env).playwright_websocket_path) := by
  refine ⟨by simp [Vnc.init], ?_⟩
  intro h
  constructor
  · simp [Vnc.init, Vnc.vnc_address, Vnc.external_host_env, Vnc.getenvTruthy, h]
  · simp [Vnc.init, Vnc.browser_address, Vnc.external_host_env, Vnc.getenvTruthy, h]

/-- An environment where only MUI_EXTERNAL_HOST is set (to "example.com"). -/
def exampleComEnv : String → Option String := fun n =>
  if n = "MUI_EXTERNAL_HOST" then some "example.com" else none

/-- Witness for C5 at concrete constructor arguments and a concrete
environment carrying MUI_EXTERNAL_HOST=example.com. -/
theorem vnc_hostname_and_addresses_witness :
    ((Vnc.init "/bd" "magentic-ui-vnc-browser" 37367 (some "tok") 6080 true
        "my-network" "fresh" exampleComEnv).hostname =
      "magentic-ui-vnc-browser_" ++
        (Vnc.init "/bd" "magentic-ui-vnc-browser" 37367 (some "tok") 6080 true
          "my-network" "fresh" exampleComEnv).playwright_websocket_path
        ++ "_" ++ toString 6080) ∧
    Vnc.vnc_address (Vnc.init "/bd" "magentic-ui-vnc-browser" 37367
        (some "tok") 6080 false "my-network" "fresh" exampleComEnv) =
      "http://example.com:" ++ toString 6080 ++ "/vnc.html" ∧
    Vnc.browser_address (Vnc.init "/bd" "magentic-ui-vnc-browser" 37367
        (some "tok") 6080 false "my-network" "fresh" exampleComEnv) =
      "ws://example.com:" ++ toString 37367 ++ "/" ++
        (Vnc.init "/bd" "magentic-ui-vnc-browser" 37367 (some "tok") 6080
          false "my-network" "fresh" exampleComEnv).playwright_websocket_path := by
  have h := vnc_hostname_and_addresses "/bd" "magentic-ui-vnc-browser" 37367
    6080 (some "tok") "my-network" "fresh" exampleComEnv
  exact ⟨h.1, (h.2 (by decide)).1, (h.2 (by decide)).2⟩

/-- C6: regenerating the browser address sets playwright_port and novnc_port
to the freshly probed values, keeps the websocket path token, bind_dir,
image, inside_docker and network_name unchanged, and the two derived URLs
are recomputed consistently from the new ports, the recomputed hostname and
the unchanged token. -/
theorem regenerate_ports_frame (b : Vnc.VncDockerPlaywrightBrowser)
    (pp np : Nat) (env : String → Option String) :
    (Vnc._generate_new_browser_address b pp np env).playwright_port = pp ∧
    (Vnc._generate_new_browser_address b pp np env).novnc_port = np ∧
    (Vnc._generate_new_browser_address b pp np env).playwright_websocket_path =
      b.playwright_websocket_path ∧
    (Vnc._generate_new_browser_address b pp np env).bind_dir = b.bind_dir ∧
    (Vnc._generate_new_browser_address b pp np env).image = b.image ∧
    (Vnc._generate_new_browser_address b pp np env).inside_docker =
      b.inside_docker ∧
    (Vnc._generate_new_browser_address b pp np env).network_name =
      b.network_name ∧
    Vnc.browser_address (Vnc._generate_new_browser_address b pp np env) =
      "ws://" ++ (Vnc._generate_new_browser_address b pp np env).hostname
        ++ ":" ++ toString pp ++ "/" ++ b.playwright_websocket_path ∧
    Vnc.vnc_address (Vnc._generate_new_browser_address b pp np env) =
      "http://" ++ (Vnc._generate_new_browser_address b pp np env).hostname
        ++ ":" ++ toString np ++ "/vnc.html" := by
  simp [Vnc._generate_new_browser_address, Vnc.browser_address, Vnc.vnc_address]

/-- C7 (behaviour of the code as written): outside the docker network the
hostname comes from the environment chain MUI_EXTERNAL_HOST, PUBLIC_HOST,
PUBLIC_IP, HOST_IP (first non-empty wins), else "127.0.0.1". The embedded
constructor, like `__init__` in the source, accepts no external-host
parameter, although the code's own precedence comment documents one. -/
theorem hostname_resolution_env_chain
    (bind_dir image : String) (playwright_port novnc_port : Nat)
    (path : Option String) (network fresh : String)
    (env : String → Option String) :
    (∀ s, Vnc.getenvTruthy env "MUI_EXTERNAL_HOST" = some s →
      (Vnc.init bind_dir image playwright_port path novnc_port false network
        fresh env).hostname = s) ∧
    (Vnc.getenvTruthy env "MUI_EXTERNAL_HOST" = none →
      ∀ s, Vnc.getenvTruthy env "PUBLIC_HOST" = some s →
        (Vnc.init bind_dir image playwright_port path novnc_port false network
          fresh env).hostname = s) ∧
    (Vnc.getenvTruthy env "MUI_EXTERNAL_HOST" = none →
      Vnc.getenvTruthy env "PUBLIC_HOST" = none →
        ∀ s, Vnc.getenvTruthy env "PUBLIC_IP" = some s →
          (Vnc.init bind_dir image playwright_port path novnc_port false
            network fresh env).hostname = s) ∧
    (Vnc.getenvTruthy env "MUI_EXTERNAL_HOST" = none →
      Vnc.getenvTruthy env "PUBLIC_HOST" = none →
        Vnc.getenvTruthy env "PUBLIC_IP" = none →
          ∀ s, Vnc.getenvTruthy env "HOST_IP" = some s →
            (Vnc.init bind_dir image playwright_port path novnc_port false
              network fresh env).hostname = s) ∧
    (Vnc.getenvTruthy env "MUI_EXTERNAL_HOST" = none →
      Vnc.getenvTruthy env "PUBLIC_HOST" = none →
        Vnc.getenvTruthy env "PUBLIC_IP" = none →
          Vnc.getenvTruthy env "HOST_IP" = none →
            (Vnc.init bind_dir image playwright_port path novnc_port false
              network fresh env).hostname = "127.0.0.1") := by
  refine ⟨?_, ?_, ?_, ?_, ?_⟩ <;> intros <;>
    simp_all [Vnc.init, Vnc.external_host_env, Option.orElse]

/-- An environment where only PUBLIC_IP is set. -/
def publicIpEnv : String → Option String := fun n =>
  if n = "PUBLIC_IP" then some "10.0.0.5" else none

/-- Witness for C7: with only PUBLIC_IP set the hostname is its value; with
no variable set it is the loopback address. -/
theorem hostname_resolution_env_chain_witness :
    (Vnc.init "/bd" "img" 37367 none 6080 false "my-network" "fresh"
        publicIpEnv).hostname = "10.0.0.5" ∧
    (Vnc.init "/bd" "img" 37367 none 6080 false "my-network" "fresh"
        (fun _ => none)).hostname = "127.0.0.1" := by
  constructor
  · exact (hostname_resolution_env_chain "/bd" "img" 37367 6080 none
      "my-network" "fresh" publicIpEnv).2.2.1 (by decide) (by decide)
      "10.0.0.5" (by decide)
  · exact (hostname_resolution_env_chain "/bd" "img" 37367 6080 none
      "my-network" "fresh" (fun _ => none)).2.2.2.2 rfl rfl rfl rfl

/-- C8 (counterexample): a well-formed content block with an absent
stop_reason does not raise — create_chat_completion silently defaults the
finish indicator to "stop", contradicting "the stop/finish indicator is
extracted, not defaulted, when absent". -/
theorem stop_reason_defaulted_cex :
    Bedrock.create_chat_completion ⟨"m", "us-west-2", 0, 1024⟩
      (fun _ => { content := some [{ text := some "hi" }], stop_reason := none })
      [] false none none =
      Except.ok { role := "assistant", content := "hi", finish_reason := "stop" } := by
  rfl

/-- C8 (amended): a missing "content" key, an empty content list, or a first
block without "text" each make create_chat_completion fail with a structural
error (never a defaulted message content); a present text succeeds, with the
finish indicator taken from stop_reason when present and defaulted to "stop"
when absent. -/
theorem bedrock_parse_missing_fields
    (c : Bedrock.BedrockClaudeChatCompletionClient)
    (backend : Bedrock.Payload → Bedrock.Body) (messages : List Message)
    (kwMaxTokens : Option Nat) (kwTemperature : Option Rat)
    (body : Bedrock.Body)
    (hbody : backend (Bedrock.buildPayload c messages kwMaxTokens kwTemperature) = body) :
    (body.content = none →
      Bedrock.create_chat_completion c backend messages false kwMaxTokens
        kwTemperature = Except.error "KeyError: content") ∧
    (body.content = some [] →
      Bedrock.create_chat_completion c backend messages false kwMaxTokens
        kwTemperature = Except.error "IndexError: list index out of range") ∧
    (∀ blocks blk, body.content = some (blk :: blocks) → blk.text = none →
      Bedrock.create_chat_completion c backend messages false kwMaxTokens
        kwTemperature = Except.error "KeyError: text") ∧
    (∀ blocks blk t, body.content = some (blk :: blocks) → blk.text = some t →
      Bedrock.create_chat_completion c backend messages false kwMaxTokens
        kwTemperature =
        Except.ok { role := "assistant", content := t
                    finish_reason := body.stop_reason.getD "stop" }) := by
  have hcreate : Bedrock.create_chat_completion c backend messages false
      kwMaxTokens kwTemperature = Bedrock.parseBody body := by
    simp [Bedrock.create_chat_completion, hbody]
  refine ⟨?_, ?_, ?_, ?_⟩
  · intro h
    rw [hcreate]
    simp [Bedrock.parseBody, h]
  · intro h
    rw [hcreate]
    simp [Bedrock.parseBody, h]
  · intro blocks blk h ht
    rw [hcreate]
    simp [Bedrock.parseBody, h, ht]
  · intro blocks blk t h ht
    rw [hcreate]
    simp [Bedrock.parseBody, h, ht]

/-- Witness for C8's amended theorem: a body without a "content" key makes
the call fail with the structural error. -/
theorem bedrock_parse_missing_fields_witness :
    Bedrock.create_chat_completion ⟨"m", "us-west-2", 0, 1024⟩
      (fun _ => { content := none, stop_reason := none }) [] false none none =
      Except.error "KeyError: content" :=
  (bedrock_parse_missing_fields ⟨"m", "us-west-2", 0, 1024⟩
    (fun _ => { content := none, stop_reason := none }) [] none none
    { content := none, stop_reason := none } rfl).1 rfl

/-- Every constructed launcher instance carries a non-empty websocket path
token, provided the drawn token (`secrets.token_hex(16)`, 32 hex digits) is
non-empty. -/
theorem init_token_ne_empty (bind_dir image : String)
    (playwright_port novnc_port : Nat) (path : Option String)
    (inside_docker : Bool) (network fresh : String)
    (env : String → Option String) (hf : fresh ≠ "") :
    (Vnc.init bind_dir image playwright_port path novnc_port inside_docker
      network fresh env).playwright_websocket_path ≠ "" := by
  simp only [Vnc.init, Vnc.tokenOrFresh]
  cases path with
  | none => exact hf
  | some s =>
    by_cases hs : s = "" <;> simp [hs, hf]

/-- C9: the configuration round trip preserves bind_dir, image, both ports,
the websocket path token (non-empty on every constructed instance) and
inside_docker, but the reconstructed network_name is always the default
"my-network" regardless of the original's, because the config schema has no
network_name field. -/
theorem config_roundtrip (b : Vnc.VncDockerPlaywrightBrowser)
    (fresh : String) (env : String → Option String)
    (htok : b.playwright_websocket_path ≠ "") :
    (Vnc._from_config (Vnc._to_config b) fresh env).bind_dir = b.bind_dir ∧
    (Vnc._from_config (Vnc._to_config b) fresh env).image = b.image ∧
    (Vnc._from_config (Vnc._to_config b) fresh env).playwright_port =
      b.playwright_port ∧
    (Vnc._from_config (Vnc._to_config b) fresh env).novnc_port = b.novnc_port ∧
    (Vnc._from_config (Vnc._to_config b) fresh env).playwright_websocket_path =
      b.playwright_websocket_path ∧
    (Vnc._from_config (Vnc._to_config b) fresh env).inside_docker =
      b.inside_docker ∧
    (Vnc._from_config (Vnc._to_config b) fresh env).network_name = "my-network" := by
  simp [Vnc._from_config, Vnc._to_config, Vnc.init, Vnc.tokenOrFresh, htok]

/-- Witness for C9: a concrete instance whose network_name is "othernet"
round trips with every listed field preserved except network_name, which
comes back as "my-network". -/
theorem config_roundtrip_witness :
    (Vnc._from_config (Vnc._to_config
        { bind_dir := "/bd", image := "img", playwright_port := 37367
          novnc_port := 6080, playwright_websocket_path := "tok"
          inside_docker := false, network_name := "othernet"
          hostname := "127.0.0.1"
          docker_name := "magentic-ui-vnc-browser_tok_6080" })
        "fresh" (fun _ => none)).playwright_websocket_path = "tok" ∧
    (Vnc._from_config (Vnc._to_config
        { bind_dir := "/bd", image := "img", playwright_port := 37367
          novnc_port := 6080, playwright_websocket_path := "tok"
          inside_docker := false, network_name := "othernet"
          hostname := "127.0.0.1"
          docker_name := "magentic-ui-vnc-browser_tok_6080" })
        "fresh" (fun _ => none)).network_name = "my-network" := by
  have h := config_roundtrip
    { bind_dir := "/bd", image := "img", playwright_port := 37367
      novnc_port := 6080, playwright_websocket_path := "tok"
      inside_docker := false, network_name := "othernet"
      hostname := "127.0.0.1"
      docker_name := "magentic-ui-vnc-browser_tok_6080" }
    "fresh" (fun _ => none) (by decide)
  exact ⟨h.2.2.2.2.1, h.2.2.2.2.2.2⟩

/-- C10: any two Gemini clients that agree on model name, temperature and
max_output_tokens — in particular two that differ only in api_key —
serialize to equal configurations, and the serialized api_key is always
None: the secret never flows into the configuration. -/
theorem gemini_to_config_key_independent
    (g₁ g₂ : Gemini.GeminiChatCompletionClient)
    (hm : g₁.model_name = g₂.model_name)
    (ht : g₁.temperature = g₂.temperature)
    (hx : g₁.max_output_tokens = g₂.max_output_tokens) :
    Gemini._to_config g₁ = Gemini._to_config g₂ ∧
    (Gemini._to_config g₁).api_key = none := by
  simp [Gemini._to_config, hm, ht, hx]

/-- Witness for C10: two clients differing only in their api_key secret have
equal serialized configurations, with api_key None. -/
theorem gemini_to_config_key_independent_witness :
    Gemini._to_config ⟨"gemini-2.5-flash", some "secret-A", 0, 1024⟩ =
      Gemini._to_config ⟨"gemini-2.5-flash", some "secret-B", 0, 1024⟩ ∧
    (Gemini._to_config
      ⟨"gemini-2.5-flash", some "secret-A", 0, 1024⟩).api_key = none :=
  gemini_to_config_key_independent _ _ rfl rfl rfl

end MagenticUI
